import Mathlib

/-!
# Fire-Smoke-Dispersion-DT — verification of the core pipeline

Shallow embedding of the repository's core pipeline:

* `backend/simulators/smoke_simulator.py` — wind normalization (`_wx_block`),
  per-horizon engine orchestration (`_run_vsmoke`, `_single_horizon`,
  `process_firemap`);
* `backend/api/transform_to_geojson.py` — geometry extraction (`_kml_ring`),
  layer fusion (`_read_incidents`, `_read_plumes_and_meta`, `build`);
* `backend/api/arcgis_api.py` — the EsriJSON projector (`to_esrijson`) and the
  fires-layer link parser;
* `backend/ingest/fire_ingester.py` — the snapshot fetch-or-reuse decision
  (`run`).

External effects (HTTP fetches, subprocess exits, the on-disk artifact store)
are passed in explicitly as environment records; machine text is modelled as
`String` / `List Char`; Python `float(...)` conversions are abstracted by a
caller-supplied scalar parser `String → α`, since none of the verified claims
depend on the numeric value of a coordinate, only on which raw text reaches
which position.
-/

namespace FireSmoke

/-! ## Python string-splitting semantics

The source splits strings three ways: `s.split()` (runs of whitespace, empty
tokens dropped), `s.split(",")` and `s.split("q=")` (single-separator splits
that keep empty segments).  They are embedded over `List Char`.
-/

/-- Characters Python's bare `str.split()` treats as whitespace (ASCII part). -/
def isPyWs (c : Char) : Bool :=
  c = ' ' || c = '\t' || c = '\n' || c = '\x0d' || c = '\x0b' || c = '\x0c'

/-- Worker for `str.split()`: accumulate the current token (reversed). -/
def pySplitWsGo (cur : List Char) : List Char → List (List Char)
  | [] => if cur.isEmpty then [] else [cur.reverse]
  | c :: cs =>
    if isPyWs c then
      if cur.isEmpty then pySplitWsGo [] cs else cur.reverse :: pySplitWsGo [] cs
    else
      pySplitWsGo (c :: cur) cs

/-- Python `s.split()`: split on runs of whitespace, dropping empty tokens. -/
def pySplitWs (s : String) : List String :=
  (pySplitWsGo [] s.toList).map fun l => String.mk l

/-- Python `s.split(",")` over `List Char` (keeps empty segments). -/
def splitComma : List Char → List (List Char)
  | [] => [[]]
  | c :: cs =>
    if c = ',' then [] :: splitComma cs
    else
      match splitComma cs with
      | [] => [[c]]
      | t :: ts => (c :: t) :: ts

/-- Python `s.split("q=")` over `List Char` (leftmost, non-overlapping).
The inner `match` on `cs` in the separator branch is only reached when
`cs.head? = some '='` and so never takes its `[]` arm. -/
def splitQ : List Char → List (List Char)
  | [] => [[]]
  | c :: cs =>
    if c = 'q' && cs.head? == some '=' then
      match cs with
      | [] => [[]]
      | _ :: cs2 => [] :: splitQ cs2
    else
      match splitQ cs with
      | [] => [[c]]
      | t :: ts => (c :: t) :: ts

/-- No character of the list is a comma. -/
def commaFree : List Char → Bool
  | [] => true
  | c :: cs => (c != ',') && commaFree cs

/-- No adjacent pair of characters spells the separator `q=`. -/
def qeFree : List Char → Bool
  | [] => true
  | c :: cs => !(c = 'q' && cs.head? == some '=') && qeFree cs

/-! ## WindResolver — `_wx_block` in `smoke_simulator.py` -/

namespace SmokeSim

/-- Python `str.isdigit` on ASCII text: nonempty and all characters digits. -/
def pyIsdigit (s : String) : Bool :=
  !s.toList.isEmpty && s.toList.all fun c => c.isDigit

/-- Python `int(...)` on a digit string. -/
def pyIntOfDigits (s : String) : Nat :=
  s.toList.foldl (fun n c => 10 * n + (c.toNat - '0'.toNat)) 0

/-- The 16 compass labels, in the order of the legacy lookup table. -/
def windDirs : List String :=
  ["N", "NNE", "NE", "ENE", "E", "ESE", "SE", "SSE",
   "S", "SSW", "SW", "WSW", "W", "WNW", "NW", "NNW"]

/-- The 16 fixed angles of the legacy lookup table. -/
def windAngles : List Nat :=
  [0, 25, 45, 65, 90, 115, 135, 155, 180, 205, 225, 245, 270, 295, 315, 335]

/-- Speed half of `_wx_block`: leading token of `wx["windSpeed"]`, digit test,
clamp below 1 up to 1.  `none` models the `IndexError` Python raises when the
string has no token at all (`"".split()[0]`). -/
def wxSpeed (windSpeed : String) : Option Nat :=
  match pySplitWs windSpeed with
  | [] => none
  | raw :: _ =>
    let wspd := if pyIsdigit raw then pyIntOfDigits raw else 0
    some (if wspd < 1 then 1 else wspd)

/-- Direction half of `_wx_block`: unrecognized labels default to `"N"`, the
angle comes from the parallel lookup tables, and 0 degrees is remapped to 360. -/
def wxDir (dirTxt : String) : Nat :=
  let d := if windDirs.contains dirTxt then dirTxt else "N"
  let wdir := windAngles.getD (windDirs.indexOf d) 0
  if wdir = 0 then 360 else wdir

/-- `_wx_block`: both halves; speed is computed first, so a token-less speed
string aborts (as in Python) before the direction is resolved. -/
def wxBlock (windSpeed windDirection : String) : Option (Nat × Nat) :=
  match wxSpeed windSpeed with
  | none => none
  | some wspd => some (wspd, wxDir windDirection)

/-- The angles `_wx_block` can actually return: the fixed 16-value table with
0 replaced by 360. -/
def resolvedAngles : List Nat :=
  [25, 45, 65, 90, 115, 135, 155, 180, 205, 225, 245, 270, 295, 315, 335, 360]

end SmokeSim




/-! ## IngestionCache — `fire_ingester.py` -/

namespace FireIngester

/-- The snapshot store: a path-indexed file system plus a fetch counter.
A file's content is identified by the ordinal of the fetch that wrote it,
which is all the claims about freshness and idempotence need. -/
structure IngestFS where
  files : List (String × Nat)
  fetchCount : Nat

/-- Content of the file at `p`, if present. -/
def lookupFile (s : IngestFS) (p : String) : Option Nat :=
  (s.files.find? fun e => e.1 == p).map fun e => e.2

/-- `_target`: `INGEST_D / f"FireMap_{day.date()}.json"`. -/
def target (day : String) : String := "FireMap_" ++ day ++ ".json"

/-- `run(day_str)`: resolve the day (`None` means today), skip the fetch when
the file exists and the day is not today, otherwise fetch once and
(over)write the file. -/
def run (today : String) (dayStr : Option String) (s : IngestFS) :
    String × IngestFS :=
  let day := dayStr.getD today
  let out := target day
  if (lookupFile s out).isSome && day != today then
    (out, s)
  else
    (out, ⟨(out, s.fetchCount) :: s.files.filter fun e => e.1 != out,
           s.fetchCount + 1⟩)

end FireIngester


/-! ## ArcGIS API — `arcgis_api.py` -/

namespace ArcgisApi

/-- A GeoJSON geometry as `to_esrijson` receives it: a `"type"` tag and
`"coordinates"`.  Points are coordinate pairs, matching the `for x, y in
ring` unpacking in the source. -/
inductive GjGeom (α : Type) where
  | polygon (coordinates : List (List (α × α)))
  | multiPolygon (coordinates : List (List (List (α × α))))
  | other (typ : String)

/-- One entry of the EsriJSON `features` array. -/
structure EsriFeature (α : Type) where
  rings : List (List (α × α))
  attributes : List (String × String)

/-- The EsriJSON document `to_esrijson` returns. -/
structure EsriDoc (α : Type) where
  geometryType : String
  wkid : Nat
  features : List (EsriFeature α)

/-- `to_esrijson`: compute `rings` per geometry type (raising `ValueError`
for anything that is not a Polygon or MultiPolygon), then wrap them in the
fixed EsriJSON envelope. -/
def to_esrijson {α : Type} (geo : GjGeom α) : Except String (EsriDoc α) :=
  let rings : Except String (List (List (α × α))) :=
    match geo with
    | .polygon coordinates =>
      .ok (coordinates.map fun ring => ring.map fun p => (p.2, p.1))
    | .multiPolygon coordinates =>
      .ok ((coordinates.map fun poly =>
        poly.map fun pt => pt.map fun p => (p.2, p.1)).flatten)
    | .other _ => .error "Only polygons supported"
  rings.map fun rs =>
    { geometryType := "esriGeometryPolygon", wkid := 4326,
      features := [{ rings := rs, attributes := [] }] }

/-- The fires-layer endpoint coordinate parse (a (lon, lat) pair of raw
texts): `float(it["link"].split(",")[1])` is the longitude and
`float(it["link"].split(",")[0].split("q=")[1])` the latitude; a missing
index models the `IndexError` Python raises. -/
def firesLonLat (link : List Char) : Option (List Char × List Char) :=
  let parts := splitComma link
  match parts.get? 1 with
  | none => none
  | some lon =>
    match parts.get? 0 with
    | none => none
    | some seg0 =>
      match (splitQ seg0).get? 1 with
      | none => none
      | some lat => some (lon, lat)

end ArcgisApi

/-! ## Link parsing in `transform_to_geojson.py` and `smoke_simulator.py` -/

namespace TransformGeojson

/-- `lat, lon = map(float, it["link"].split("q=")[1].split(","))`: the text
after the first `q=` marker must split into exactly two comma-separated
parts (Python otherwise raises, modelled as `none`). -/
def linkLatLon (link : List Char) : Option (List Char × List Char) :=
  match (splitQ link).get? 1 with
  | none => none
  | some s =>
    match splitComma s with
    | [la, lo] => some (la, lo)
    | _ => none

/-- The `[lon, lat]` order in which `_read_incidents` emits the parsed
coordinates. -/
def linkLonLat (link : List Char) : Option (List Char × List Char) :=
  (linkLatLon link).map fun p => (p.2, p.1)

end TransformGeojson


/-! ## GeometryExtractor — `_kml_ring` in `transform_to_geojson.py` -/

namespace TransformGeojson

/-- A parsed (shapely-style) geometry.  Coordinates are opaque scalars of
type `α`; a point is a tuple of components (2-D or 3-D).  `multiPolygon`
keeps its first member separately: the source indexes `geom.geoms[0]`, and
fastkml never yields an empty MultiPolygon.  Each MultiPolygon member is an
(exterior, interiors) pair, as is a `polygon`'s payload. -/
inductive Geom (α : Type) where
  | point (coords : List α)
  | lineString (coords : List (List α))
  | polygon (exterior : List (List α)) (interiors : List (List (List α)))
  | multiPolygon (first : List (List α) × List (List (List α)))
                 (rest : List (List (List α) × List (List (List α))))
  | collection (members : List (Geom α))

/-- A node of the fastkml feature tree: an optional geometry and child
features (`_children`). -/
inductive KFeat (α : Type) where
  | mk (geometry : Option (Geom α)) (children : List (KFeat α))

/-- The parsed artifact: the feature tree (`_children(doc)`) and, for the
raw fallback, the text of the first `LinearRing/coordinates` element of the
document if one exists (`None` also covers an element with `None` text). -/
structure KmlDoc (α : Type) where
  features : List (KFeat α)
  rawCoords : Option String

mutual
/-- `_extract_ring`: first polygon exterior from any geometry type.  The
empty list plays the role of Python's `None`/empty falsy result. -/
def extract_ring {α : Type} : Geom α → List (List α)
  | .polygon ext _ => ext
  | .multiPolygon f _ => f.1
  | .collection gs => firstRing gs
  | .point _ => []
  | .lineString _ => []
/-- The `for g in geom.geoms` loop inside `_extract_ring` for a
GeometryCollection: first member whose extraction is non-falsy wins. -/
def firstRing {α : Type} : List (Geom α) → List (List α)
  | [] => []
  | g :: gs =>
    let r := extract_ring g
    if r.isEmpty then firstRing gs else r
end

mutual
/-- Size of a feature node (for the BFS step count). -/
def kfSize {α : Type} : KFeat α → Nat
  | .mk _ cs => 1 + kfsSize cs
/-- Total size of a list of feature nodes. -/
def kfsSize {α : Type} : List (KFeat α) → Nat
  | [] => 0
  | f :: fs => kfSize f + kfsSize fs
end

/-- One BFS step per unit of fuel: pop the queue head, return its ring if
its geometry yields one, otherwise append its children to the queue (the
breadth-first `queue.extend(_children(feat))` of the source).  Each step
consumes exactly one node, so `kfsSize` of the initial queue is exactly
enough fuel; the `0, _ :: _` arm is never reached from `bfs`. -/
def kml_bfs_fuel {α : Type} : Nat → List (KFeat α) → Option (List (List α))
  | _, [] => none
  | 0, _ :: _ => none
  | fuel + 1, KFeat.mk g cs :: rest =>
    match g with
    | some geom =>
      let r := extract_ring geom
      if r.isEmpty then kml_bfs_fuel fuel (rest ++ cs) else some r
    | none => kml_bfs_fuel fuel (rest ++ cs)

/-- The breadth-first search over the feature tree in `_kml_ring`. -/
def bfs {α : Type} (q : List (KFeat α)) : Option (List (List α)) :=
  kml_bfs_fuel (kfsSize q) q

/-- `tuple(map(float, p.split(",")[:2]))`: split one token on commas, keep
only the first two components, convert each. -/
def parsePoint {α : Type} (parse : String → α) (tok : List Char) : List α :=
  ((splitComma tok).take 2).map fun comp => parse (String.mk comp)

/-- The token loop of the fallback: `coord_el.text.strip().split()` then the
per-token parse. -/
def parseCoordsText {α : Type} (parse : String → α) (txt : String) :
    List (List α) :=
  (pySplitWsGo [] txt.toList).map fun tok => parsePoint parse tok

/-- The raw-document fallback of `_kml_ring`: `None` when there is no
`LinearRing/coordinates` element or its text is falsy, the parsed pairs when
non-empty, `None` again when tokenization yields nothing. -/
def fallbackRing {α : Type} (parse : String → α) (raw : Option String) :
    Option (List (List α)) :=
  match raw with
  | none => none
  | some txt =>
    if txt = "" then none
    else
      let pairs := parseCoordsText parse txt
      if pairs.isEmpty then none else some pairs

/-- `_kml_ring`: breadth-first tree strategy first, raw fallback second,
`none` when both fail. -/
def kml_ring {α : Type} (parse : String → α) (doc : KmlDoc α) :
    Option (List (List α)) :=
  match bfs doc.features with
  | some r => some r
  | none => fallbackRing parse doc.rawCoords

end TransformGeojson


/-! ## LayerFusion — `transform_to_geojson.py` -/

namespace TransformGeojson

/-- One `rss.channel.item` of the incident snapshot: `guid.#text`, `link`,
`title`, and the `.get(..., "")` defaults for description and pubDate. -/
structure RssItem where
  guid : String
  link : String
  title : String
  description : String
  pubDate : String
deriving DecidableEq

/-- A GeoJSON property value: the bundles carry both strings and numbers. -/
inductive PVal (α : Type) where
  | s (v : String)
  | n (v : α)
deriving DecidableEq

/-- A fused feature's geometry: a Point with `[lon, lat]` coordinates, or a
Polygon whose single ring slot may be `null` (the source emits
`"coordinates": [_kml_ring(...)]` even when the ring is `None`). -/
inductive FGeom (α : Type) where
  | point (lon lat : α)
  | polygon (rings : List (Option (List (List α))))
deriving DecidableEq

/-- A GeoJSON feature: geometry plus ordered properties. -/
structure GFeature (α : Type) where
  geom : FGeom α
  props : List (String × PVal α)
deriving DecidableEq

/-- One horizon entry of a bundle file: the artifact path and the
emission/wind parameters. -/
structure HorizonFileData (α : Type) where
  kml : String
  acres : α
  mix : α
  stclass : α
  frise : α
  horizon_min : α
  erate : α
  hrate : α
  wspd : α
  wdir : α
deriving DecidableEq

/-- One per-incident bundle file (`FireMap_<day>_<guid>.json`). -/
structure BundleFile (α : Type) where
  guid : String
  lat : α
  lon : α
  horizons : List (String × HorizonFileData α)
deriving DecidableEq

/-- The fused FeatureCollection. -/
structure FeatureColl (α : Type) where
  title : String
  features : List (GFeature α)
deriving DecidableEq

/-- `_read_incidents`: one Point feature per item, coordinates `[lon, lat]`
parsed from the link; a malformed link raises in Python, modelled as `none`
for the whole read. -/
def read_incidents {α : Type} (parse : String → α) :
    List RssItem → Option (List (GFeature α))
  | [] => some []
  | it :: rest =>
    match linkLatLon it.link.toList with
    | none => none
    | some latlon =>
      match read_incidents parse rest with
      | none => none
      | some feats =>
        some ({ geom := FGeom.point (parse (String.mk latlon.2))
                  (parse (String.mk latlon.1)),
                props := [("layer", PVal.s "incidents"), ("guid", PVal.s it.guid),
                          ("title", PVal.s it.title),
                          ("description", PVal.s it.description),
                          ("pubDate", PVal.s it.pubDate)] } :: feats)

/-- The plume Polygon feature built for one (bundle, horizon) pair whose
artifact was parsed to `doc`; its single ring slot is `_kml_ring`'s result,
`null` included. -/
def plumeFeature {α : Type} (parse : String → α) (b : BundleFile α)
    (label : String) (doc : KmlDoc α) : GFeature α :=
  { geom := FGeom.polygon [kml_ring parse doc],
    props := [("layer", PVal.s "plumes"), ("guid", PVal.s b.guid),
              ("title", PVal.s b.guid), ("horizon_type", PVal.s label)] }

/-- The meta Point feature built for one (bundle, horizon) pair (note
`title = bundle["guid"]` in the source). -/
def metaFeature {α : Type} (b : BundleFile α) (label : String)
    (hd : HorizonFileData α) : GFeature α :=
  { geom := FGeom.point b.lon b.lat,
    props := [("layer", PVal.s "meta"), ("guid", PVal.s b.guid),
              ("title", PVal.s b.guid), ("horizon_type", PVal.s label),
              ("acres", PVal.n hd.acres), ("mix", PVal.n hd.mix),
              ("stclass", PVal.n hd.stclass), ("frise", PVal.n hd.frise),
              ("horizon_min", PVal.n hd.horizon_min),
              ("erate", PVal.n hd.erate), ("hrate", PVal.n hd.hrate),
              ("wspd", PVal.n hd.wspd), ("wdir", PVal.n hd.wdir)] }

/-- The inner `for label, hdict in bundle["horizons"].items()` loop: a
missing artifact logs a warning (its path) and skips both features;
otherwise the plume and meta features are appended. -/
def horizonLoop {α : Type} (parse : String → α)
    (fs : String → Option (KmlDoc α)) (b : BundleFile α) :
    List (String × HorizonFileData α) →
    List (GFeature α) × List (GFeature α) × List String
  | [] => ([], [], [])
  | lh :: rest =>
    let acc := horizonLoop parse fs b rest
    match fs lh.2.kml with
    | none => (acc.1, acc.2.1, lh.2.kml :: acc.2.2)
    | some doc =>
      (plumeFeature parse b lh.1 doc :: acc.1,
       metaFeature b lh.1 lh.2 :: acc.2.1, acc.2.2)

/-- `_read_plumes_and_meta`: iterate the day's bundle files in order,
concatenating each bundle's plume features, meta features and missing-kml
warnings. -/
def read_plumes_and_meta {α : Type} (parse : String → α)
    (fs : String → Option (KmlDoc α)) :
    List (BundleFile α) → List (GFeature α) × List (GFeature α) × List String
  | [] => ([], [], [])
  | b :: rest =>
    let cur := horizonLoop parse fs b b.horizons
    let acc := read_plumes_and_meta parse fs rest
    (cur.1 ++ acc.1, cur.2.1 ++ acc.2.1, cur.2.2 ++ acc.2.2)

/-- `build`: incidents, then plumes, then meta, in one flat list (the
`save` flag of the source only chooses between returning this object and
writing it to disk unchanged, so it is not modelled). -/
def build {α : Type} (parse : String → α) (fs : String → Option (KmlDoc α))
    (day : String) (items : List RssItem) (bundles : List (BundleFile α)) :
    Option (FeatureColl α) :=
  match read_incidents parse items with
  | none => none
  | some incs =>
    let pm := read_plumes_and_meta parse fs bundles
    some { title := "FireSmokeMap_" ++ day, features := incs ++ pm.1 ++ pm.2.1 }

/-- Closed form of the plume features: one per (bundle, horizon) pair whose
artifact file exists, in bundle-then-horizon order. -/
def plumesOf {α : Type} (parse : String → α) (fs : String → Option (KmlDoc α))
    (bundles : List (BundleFile α)) : List (GFeature α) :=
  bundles.flatMap fun b => b.horizons.filterMap fun lh =>
    (fs lh.2.kml).map fun doc => plumeFeature parse b lh.1 doc

/-- Closed form of the meta features: one per (bundle, horizon) pair whose
artifact file exists, in bundle-then-horizon order. -/
def metasOf {α : Type} (fs : String → Option (KmlDoc α))
    (bundles : List (BundleFile α)) : List (GFeature α) :=
  bundles.flatMap fun b => b.horizons.filterMap fun lh =>
    (fs lh.2.kml).map fun _ => metaFeature b lh.1 lh.2

/-- Closed form of the logged warnings: the artifact paths of the
(bundle, horizon) pairs whose artifact file is missing, in order. -/
def missingOf {α : Type} (fs : String → Option (KmlDoc α))
    (bundles : List (BundleFile α)) : List String :=
  bundles.flatMap fun b => b.horizons.filterMap fun lh =>
    match fs lh.2.kml with
    | none => some lh.2.kml
    | some _ => none

/-- Number of (bundle, horizon) pairs whose artifact file exists. -/
def artifactPairs {α : Type} (fs : String → Option (KmlDoc α))
    (bundles : List (BundleFile α)) : Nat :=
  (bundles.map fun b =>
    (b.horizons.filter fun lh => (fs lh.2.kml).isSome).length).sum

/-- Number of (bundle, horizon) pairs whose artifact file exists *and*
whose ring extraction succeeds — the "plumes with resolvable geometry" of
the spec's count formula. -/
def resolvedPlumes {α : Type} (parse : String → α)
    (fs : String → Option (KmlDoc α)) (bundles : List (BundleFile α)) : Nat :=
  (bundles.map fun b =>
    (b.horizons.filter fun lh =>
      ((fs lh.2.kml).bind fun doc => kml_ring parse doc).isSome).length).sum

/-- Total number of (bundle, horizon) pairs read from the day's bundles. -/
def totalPairs {α : Type} (bundles : List (BundleFile α)) : Nat :=
  (bundles.map fun b => b.horizons.length).sum

/-- Concrete scalar parser for witnesses and counterexamples. -/
def cexParse : String → Int := fun _ => 0

/-- A parsed artifact with no feature geometry and no raw coordinates:
`_kml_ring` returns `None` on it. -/
def cexDoc : KmlDoc Int := ⟨[], none⟩

/-- A horizon entry pointing at `plumes/k.kml`. -/
def cexHd : HorizonFileData Int := ⟨"plumes/k.kml", 1, 2, 3, 4, 30, 5, 6, 4, 180⟩

/-- A bundle with a single horizon. -/
def cexBundle : BundleFile Int := ⟨"A1", 30, -97, [("0.5h", cexHd)]⟩

/-- An artifact store where the bundle's kml exists but holds no ring. -/
def cexFs : String → Option (KmlDoc Int) :=
  fun p => if p = "plumes/k.kml" then some cexDoc else none

/-- An artifact store with no files at all. -/
def cexFsNone : String → Option (KmlDoc Int) := fun _ => none

/-- A well-formed incident item. -/
def cexItem : RssItem := ⟨"A1", "a?q=30,-97", "Fire A1", "", ""⟩

end TransformGeojson


/-! ## HorizonOrchestrator — `smoke_simulator.py` -/

namespace SmokeSim

/-- The `conf.vsmoke` emission parameters used by `_single_horizon` (the
two float literals 4.77 / 5.18 for erate/hrate are fixed constants of the
source and carry no information for the orchestration claims). -/
structure VsmokeConf (α : Type) where
  acres_default : α
  mix_height_ft : α
  stability_class : α
  plume_rise_fraction : α

/-- The two external processes driven by `_run_vsmoke`, keyed by the input
stem of the horizon being simulated: exit codes and combined
stdout/stderr text. -/
structure EngineEnv where
  solverExit : String → Nat
  solverOut : String → String
  converterExit : String → Nat
  converterOut : String → String

/-- `_run_vsmoke`: run the Fortran solver, then the KML converter, in that
order; a non-zero exit of either raises `RuntimeError` with the process
output preserved; on success the deterministic KML path is returned. -/
def run_vsmoke (env : EngineEnv) (stem : String) : Except String String :=
  if env.solverExit stem != 0 then
    .error ("VSmoke solver failed:\n" ++ env.solverOut stem)
  else if env.converterExit stem != 0 then
    .error ("runvsmoke.py failed:\n" ++ env.converterOut stem)
  else
    .ok ("data/plumes/" ++ stem ++ ".kml")

/-- The stem `f"{datetime.now().date()}_{guid}_{tag}"`. -/
def hstem (today guid tag : String) : String :=
  today ++ "_" ++ guid ++ "_" ++ tag

/-- The metadata snippet `_single_horizon` returns (coordinates kept as the
raw link text, wind already normalized). -/
structure HorizonMeta (α : Type) where
  stem : String
  guid : String
  lat : List Char
  lon : List Char
  acres : α
  mix : α
  stclass : α
  frise : α
  horizon_min : Nat
  wspd : Nat
  wdir : Nat
  kml : String

/-- `_single_horizon`: resolve wind (a token-less wind speed raises, as in
`_wx_block`), build the input, drive the engine, and record the artifact
path. -/
def single_horizon {α : Type} (cfg : VsmokeConf α) (env : EngineEnv)
    (wx : List Char × List Char → String × String) (today guid : String)
    (lat lon : List Char) (tag : String) (minutes : Nat) :
    Except String (HorizonMeta α) :=
  match wxBlock (wx (lat, lon)).1 (wx (lat, lon)).2 with
  | none => .error "IndexError: windSpeed has no tokens"
  | some wb =>
    match run_vsmoke env (hstem today guid tag) with
    | .error e => .error e
    | .ok kml =>
      .ok { stem := hstem today guid tag, guid := guid, lat := lat, lon := lon,
            acres := cfg.acres_default, mix := cfg.mix_height_ft,
            stclass := cfg.stability_class, frise := cfg.plume_rise_fraction,
            horizon_min := minutes, wspd := wb.1, wdir := wb.2, kml := kml }

/-- The per-incident bundle object `process_firemap` writes. -/
structure Bundle (α : Type) where
  guid : String
  lat : List Char
  lon : List Char
  horizons : List (String × HorizonMeta α)

/-- Processing of one RSS item in `process_firemap`: parse the link (the
same `split("q=")[1].split(",")` expression embedded as
`TransformGeojson.linkLatLon`), run the three horizons in catalog order,
and only then assemble the bundle and its file name
`f"{firemap_json.stem}_{guid}.json"`. -/
def process_item {α : Type} (cfg : VsmokeConf α) (env : EngineEnv)
    (wx : List Char × List Char → String × String) (today fmstem : String)
    (it : TransformGeojson.RssItem) : Except String (String × Bundle α) :=
  match TransformGeojson.linkLatLon it.link.toList with
  | none => .error "ValueError: cannot unpack link coordinates"
  | some latlon =>
    match single_horizon cfg env wx today it.guid latlon.1 latlon.2 "1" 30 with
    | .error e => .error e
    | .ok h1 =>
      match single_horizon cfg env wx today it.guid latlon.1 latlon.2 "2" 90 with
      | .error e => .error e
      | .ok h2 =>
        match single_horizon cfg env wx today it.guid latlon.1 latlon.2 "3" 150 with
        | .error e => .error e
        | .ok h3 =>
          .ok (fmstem ++ "_" ++ it.guid ++ ".json",
               { guid := it.guid, lat := latlon.1, lon := latlon.2,
                 horizons := [("0.5h", h1), ("1.5h", h2), ("2.5h", h3)] })

/-- `process_firemap`: iterate the RSS items; each successful item writes
its bundle file; the first exception aborts the loop (later items are not
processed), returning the write log so far and the error. -/
def process_firemap {α : Type} (cfg : VsmokeConf α) (env : EngineEnv)
    (wx : List Char × List Char → String × String) (today fmstem : String) :
    List TransformGeojson.RssItem →
    List (String × Bundle α) × Option String
  | [] => ([], none)
  | it :: rest =>
    match process_item cfg env wx today fmstem it with
    | .error e => ([], some e)
    | .ok w =>
      let acc := process_firemap cfg env wx today fmstem rest
      (w :: acc.1, acc.2)

/-- The engine (solver or KML converter) exits non-zero for at least one of
the three horizons of the incident `guid`. -/
def engineFailsAt (env : EngineEnv) (today guid : String) : Prop :=
  ∃ tag, tag ∈ (["1", "2", "3"] : List String) ∧
    (env.solverExit (hstem today guid tag) ≠ 0 ∨
     env.converterExit (hstem today guid tag) ≠ 0)

/-- Concrete configuration for the C1 witness. -/
def cexConf : VsmokeConf Int := ⟨10, 1500, 4, 1⟩

/-- An engine whose solver always exits 1. -/
def cexEnvFail : EngineEnv := ⟨fun _ => 1, fun _ => "boom", fun _ => 0, fun _ => ""⟩

/-- A constant weather lookup. -/
def cexWx : List Char × List Char → String × String := fun _ => ("4 mph", "S")

end SmokeSim

end FireSmoke

/-! ## Helper lemmas about the split functions -/

namespace FireSmoke

theorem splitComma_ne_nil (l : List Char) : splitComma l ≠ [] := by
  induction l with
  | nil => simp [splitComma]
  | cons c cs ih =>
    simp only [splitComma]
    split
    · simp
    · cases h : splitComma cs with
      | nil => simp
      | cons t ts => simp

/-- A comma-free list is one whole `split(",")` segment. -/
theorem splitComma_of_commaFree {a : List Char} (h : commaFree a = true) :
    splitComma a = [a] := by
  induction a with
  | nil => rfl
  | cons c cs ih =>
    simp only [commaFree, Bool.and_eq_true, bne_iff_ne] at h
    simp only [splitComma, if_neg h.1, ih h.2]


/-- `commaFree` distributes over append. -/
theorem commaFree_append {a b : List Char} :
    commaFree (a ++ b) = (commaFree a && commaFree b) := by
  induction a with
  | nil => simp [commaFree]
  | cons c cs ih =>
    simp only [List.cons_append, commaFree, List.append_eq, ih, Bool.and_assoc]

/-- Splitting on the first comma after a comma-free prefix. -/
theorem splitComma_append {a : List Char} (b : List Char) (h : commaFree a = true) :
    splitComma (a ++ ',' :: b) = a :: splitComma b := by
  induction a with
  | nil => simp [splitComma]
  | cons c cs ih =>
    simp only [commaFree, Bool.and_eq_true, bne_iff_ne] at h
    have hrec := ih h.2
    simp only [List.cons_append, splitComma, List.append_eq, if_neg h.1, hrec]

/-- A `q=`-free list is one whole `split("q=")` segment. -/
theorem splitQ_of_qeFree {a : List Char} (h : qeFree a = true) :
    splitQ a = [a] := by
  induction a with
  | nil => rfl
  | cons c cs ih =>
    simp only [qeFree, Bool.and_eq_true, Bool.not_eq_eq_eq_not, Bool.not_true] at h
    rw [splitQ.eq_def]
    simp only [h.1, Bool.false_eq_true, if_false, ih h.2]

/-- Splitting on the first `q=` after a `q=`-free prefix. -/
theorem splitQ_append {a : List Char} (b : List Char) (h : qeFree a = true) :
    splitQ (a ++ 'q' :: '=' :: b) = a :: splitQ b := by
  induction a with
  | nil =>
    simp [splitQ]
  | cons c cs ih =>
    simp only [qeFree, Bool.and_eq_true, Bool.not_eq_eq_eq_not, Bool.not_true] at h
    have hrec := ih h.2
    have hcond : (c = 'q' && ((cs ++ 'q' :: '=' :: b).head? == some '=')) = false := by
      cases cs with
      | nil => simp
      | cons d ds => simpa using h.1
    rw [List.cons_append, splitQ.eq_def]
    simp only [hcond, Bool.false_eq_true, if_false, hrec]

/-- `q=`-freeness survives joining with a comma (a comma can never complete
a `q=` pair across the junction). -/
theorem qeFree_append_comma {a b : List Char} (ha : qeFree a = true)
    (hb : qeFree b = true) : qeFree (a ++ ',' :: b) = true := by
  induction a with
  | nil =>
    simp only [List.nil_append, qeFree]
    simp [hb]
  | cons c cs ih =>
    simp only [qeFree, Bool.and_eq_true, Bool.not_eq_eq_eq_not, Bool.not_true] at ha
    have hrec := ih ha.2
    have hcond : (c = 'q' && ((cs ++ ',' :: b).head? == some '=')) = false := by
      cases cs with
      | nil => simp
      | cons d ds => simpa using ha.1
    simp only [List.cons_append, qeFree, List.append_eq, hcond, Bool.not_false,
      Bool.true_and, hrec]


/-! ## Claim C6 — wind-speed normalization -/

namespace SmokeSim

/-- C6: for every wind observation string that has a leading
whitespace-separated token, the normalized wind speed exists and is an
integer at least 1; a non-numeric leading token (such as "Calm") yields the
raw value 0 and is clamped up to 1, and a numeric token below 1 is likewise
clamped up to 1 (so the result is `max value 1`). -/
theorem C6_wind_speed_normalization (s t : String) (ts : List String)
    (h : pySplitWs s = t :: ts) :
    ∃ v, wxSpeed s = some v ∧ 1 ≤ v ∧
      (pyIsdigit t = false → v = 1) ∧
      (pyIsdigit t = true → v = max (pyIntOfDigits t) 1) := by
  cases hd : pyIsdigit t with
  | false =>
    refine ⟨1, ?_, le_refl 1, ?_, ?_⟩
    · simp [wxSpeed, h, hd]
    · intro _
      rfl
    · intro hc
      exact absurd hc (by decide)
  | true =>
    refine ⟨max (pyIntOfDigits t) 1, ?_, le_max_right _ _, ?_, ?_⟩
    · simp only [wxSpeed, h, hd, if_true]
      congr 1
      split <;> omega
    · intro hc
      exact absurd hc (by decide)
    · intro _
      rfl

/-- Witness for C6 at the concrete observation "Calm". -/
theorem C6_wind_speed_normalization_witness :
    pySplitWs "Calm" = ["Calm"] ∧ wxSpeed "Calm" = some 1 := by
  refine ⟨by decide, ?_⟩
  obtain ⟨v, hv, _, h2, _⟩ := C6_wind_speed_normalization "Calm" "Calm" [] (by decide)
  rw [hv, h2 (by decide)]

/-! ## Claim C7 — wind-direction resolution -/

/-- C7: for every wind-direction label, the resolved angle lies in the fixed
16-value set with 0 remapped to 360 (so it is never 0 and always lies in
[1, 360]); each of the 16 compass labels maps to its fixed table angle (the
"N" angle 0 appearing as 360); an unrecognized label resolves to the "N"
angle, i.e. 360. -/
theorem C7_wind_direction_resolution (s : String) :
    wxDir s ∈ resolvedAngles ∧
    1 ≤ wxDir s ∧ wxDir s ≤ 360 ∧ wxDir s ≠ 0 ∧
    (windDirs.contains s = false → wxDir s = 360) ∧
    (wxDir "N" = 360 ∧ wxDir "NNE" = 25 ∧ wxDir "NE" = 45 ∧ wxDir "ENE" = 65 ∧
     wxDir "E" = 90 ∧ wxDir "ESE" = 115 ∧ wxDir "SE" = 135 ∧ wxDir "SSE" = 155 ∧
     wxDir "S" = 180 ∧ wxDir "SSW" = 205 ∧ wxDir "SW" = 225 ∧ wxDir "WSW" = 245 ∧
     wxDir "W" = 270 ∧ wxDir "WNW" = 295 ∧ wxDir "NW" = 315 ∧ wxDir "NNW" = 335) := by
  have key : ∀ d ∈ windDirs,
      (if windAngles.getD (windDirs.indexOf d) 0 = 0 then 360
       else windAngles.getD (windDirs.indexOf d) 0) ∈ resolvedAngles := by
    decide
  have hw : wxDir s ∈ resolvedAngles := by
    by_cases hc : windDirs.contains s = true
    · have hs : s ∈ windDirs := by
        simpa [List.contains] using hc
      simpa only [wxDir, hc, if_true] using key s hs
    · simp only [wxDir, hc, if_false]
      exact key "N" (by decide)
  have hb : ∀ a ∈ resolvedAngles, 1 ≤ a ∧ a ≤ 360 ∧ a ≠ 0 := by decide
  refine ⟨hw, (hb _ hw).1, (hb _ hw).2.1, (hb _ hw).2.2, ?_, by decide⟩
  intro hc
  simp only [wxDir, hc, Bool.false_eq_true, if_false]
  decide

/-- Witness for C7 at the unrecognized label "Calm". -/
theorem C7_wind_direction_resolution_witness : wxDir "Calm" = 360 :=
  (C7_wind_direction_resolution "Calm").2.2.2.2.1 (by decide)

end SmokeSim


/-! ## Claim C8 — ingestion cache fetch-or-reuse -/

namespace FireIngester

theorem lookupFile_write (l : List (String × Nat)) (p : String) (n m : Nat) :
    lookupFile ⟨(p, n) :: l, m⟩ p = some n := by
  simp [lookupFile]

/-- C8: the ingestion resolve operation always re-fetches and overwrites for
the current calendar date; for a past date with an existing snapshot it
returns the path unchanged without fetching; for a past date with no
snapshot it fetches exactly once and writes the file; and a second call for
a past date is a no-op returning the same path and state. -/
theorem C8_ingestion_cache_resolve (today d : String) (s : IngestFS) :
    ((run today (some today) s).1 = target today ∧
     (run today (some today) s).2.fetchCount = s.fetchCount + 1 ∧
     lookupFile (run today (some today) s).2 (target today) = some s.fetchCount) ∧
    (d ≠ today → ∀ c, lookupFile s (target d) = some c →
      run today (some d) s = (target d, s)) ∧
    (d ≠ today → lookupFile s (target d) = none →
      (run today (some d) s).2.fetchCount = s.fetchCount + 1 ∧
      lookupFile (run today (some d) s).2 (target d) = some s.fetchCount) ∧
    (d ≠ today →
      run today (some d) (run today (some d) s).2 =
        ((run today (some d) s).1, (run today (some d) s).2)) := by
  refine ⟨?_, ?_, ?_, ?_⟩
  · simp [run, lookupFile_write]
  · intro hne c hc
    simp [run, hc, bne_iff_ne.mpr hne]
  · intro hne hc
    simp [run, hc, lookupFile_write]
  · intro hne
    by_cases hc : (lookupFile s (target d)).isSome = true
    · have h1 : run today (some d) s = (target d, s) := by
        simp [run, hc, bne_iff_ne.mpr hne]
      rw [h1]
      simp [run, hc, bne_iff_ne.mpr hne]
    · have h1 : run today (some d) s =
          (target d, ⟨(target d, s.fetchCount) ::
            s.files.filter fun e => e.1 != target d, s.fetchCount + 1⟩) := by
        simp only [run, Option.getD_some]
        rw [if_neg]
        simp [hc]
      rw [h1]
      simp [run, lookupFile_write, bne_iff_ne.mpr hne]

/-- Witness for C8: a second resolve of a past date with an existing snapshot
returns the same path and performs no fetch. -/
theorem C8_ingestion_cache_resolve_witness :
    run "2025-10-12" (some "2025-05-11")
        ⟨[("FireMap_2025-05-11.json", 7)], 3⟩ =
      ("FireMap_2025-05-11.json", ⟨[("FireMap_2025-05-11.json", 7)], 3⟩) :=
  (C8_ingestion_cache_resolve "2025-10-12" "2025-05-11"
      ⟨[("FireMap_2025-05-11.json", 7)], 3⟩).2.1 (by decide) 7 (by decide)

end FireIngester


/-! ## Claim C9 — the alternate-ring (EsriJSON) projection -/

namespace ArcgisApi

/-- C9: on a Polygon the projection swaps the axis order of every point of
every ring; on a MultiPolygon it flattens all member polygons' rings into a
single axis-swapped ring list; any other geometry type is an error; a
successful result carries geometryType "esriGeometryPolygon", wkid 4326 and
exactly one feature with an empty attribute set; and swapping twice gives
back the original rings. -/
theorem C9_alternate_ring_projection {α : Type}
    (coords : List (List (α × α))) (mcoords : List (List (List (α × α))))
    (t : String) :
    (to_esrijson (.polygon coords) =
      .ok ⟨"esriGeometryPolygon", 4326,
           [⟨coords.map fun ring => ring.map Prod.swap, []⟩]⟩) ∧
    (to_esrijson (.multiPolygon mcoords) =
      .ok ⟨"esriGeometryPolygon", 4326,
           [⟨(mcoords.map fun poly =>
                poly.map fun ring => ring.map Prod.swap).flatten, []⟩]⟩) ∧
    (to_esrijson (GjGeom.other (α := α) t) = .error "Only polygons supported") ∧
    ((to_esrijson (.polygon coords)).toOption.map
        (fun doc => doc.features.map fun f =>
          f.rings.map fun ring => ring.map Prod.swap) = some [coords]) := by
  have hpoly : to_esrijson (.polygon coords) =
      .ok ⟨"esriGeometryPolygon", 4326,
           [⟨coords.map fun ring => ring.map Prod.swap, []⟩]⟩ := rfl
  refine ⟨hpoly, rfl, rfl, ?_⟩
  rw [hpoly]
  simp [Except.toOption, List.map_map, Prod.swap_swap_eq]

end ArcgisApi

/-! ## Claim C10 — agreement of the two link parsers -/

/-- The well-formed link shape of C10: some prefix, the `q=` marker, then
`lat`, a comma, and `lon`. -/
theorem C10_link_parser_agreement (pre lat lon : List Char)
    (hp1 : qeFree pre = true) (hp2 : commaFree pre = true)
    (ha1 : qeFree lat = true) (ha2 : commaFree lat = true)
    (ho1 : qeFree lon = true) (ho2 : commaFree lon = true) :
    (ArcgisApi.firesLonLat (pre ++ 'q' :: '=' :: (lat ++ ',' :: lon)) =
        some (lon, lat) ∧
     TransformGeojson.linkLonLat (pre ++ 'q' :: '=' :: (lat ++ ',' :: lon)) =
        some (lon, lat)) ∧
    ArcgisApi.firesLonLat ('1' :: ',' :: 'q' :: '=' :: '2' :: ',' :: '3' :: []) ≠
      TransformGeojson.linkLonLat
        ('1' :: ',' :: 'q' :: '=' :: '2' :: ',' :: '3' :: []) := by
  have hqe2 : commaFree ('q' :: '=' :: lat) = true := by
    simp only [commaFree]
    simp [ha2]
  have hseg : commaFree (pre ++ 'q' :: '=' :: lat) = true := by
    rw [commaFree_append, hp2, hqe2]
    rfl
  have hshape : pre ++ 'q' :: '=' :: (lat ++ ',' :: lon) =
      (pre ++ 'q' :: '=' :: lat) ++ ',' :: lon := by
    simp
  refine ⟨⟨?_, ?_⟩, by decide⟩
  · have h1 : splitComma (pre ++ 'q' :: '=' :: (lat ++ ',' :: lon)) =
        (pre ++ 'q' :: '=' :: lat) :: [lon] := by
      rw [hshape, splitComma_append _ hseg, splitComma_of_commaFree ho2]
    have h2 : splitQ (pre ++ 'q' :: '=' :: lat) = pre :: [lat] := by
      rw [splitQ_append _ hp1, splitQ_of_qeFree ha1]
    simp [ArcgisApi.firesLonLat, h1, h2]
  · have h1 : splitQ (pre ++ 'q' :: '=' :: (lat ++ ',' :: lon)) =
        pre :: [lat ++ ',' :: lon] := by
      rw [splitQ_append _ hp1,
        splitQ_of_qeFree (qeFree_append_comma ha1 ho1)]
    have h2 : splitComma (lat ++ ',' :: lon) = [lat, lon] := by
      rw [splitComma_append _ ha2, splitComma_of_commaFree ho2]
    simp [TransformGeojson.linkLonLat, TransformGeojson.linkLatLon, h1, h2]

/-- Witness for C10 at a concrete well-formed link (`map?q=30,-97`). -/
theorem C10_link_parser_agreement_witness :
    ArcgisApi.firesLonLat
        (['m', 'a', 'p', '?'] ++ 'q' :: '=' ::
          (['3', '0'] ++ ',' :: ['-', '9', '7'])) =
      some (['-', '9', '7'], ['3', '0']) :=
  ((C10_link_parser_agreement ['m', 'a', 'p', '?'] ['3', '0'] ['-', '9', '7']
      (by decide) (by decide) (by decide) (by decide) (by decide)
      (by decide)).1).1


/-! ## Claim C2 — the multi-strategy geometry extractor -/

namespace TransformGeojson

theorem kfsSize_append {α : Type} (a b : List (KFeat α)) :
    kfsSize (a ++ b) = kfsSize a + kfsSize b := by
  induction a with
  | nil => simp [kfsSize]
  | cons f fs ih =>
    simp only [List.cons_append, kfsSize, List.append_eq, ih]
    omega

/-- The BFS step: exact-size fuel steps once and remains exact. -/
theorem bfs_cons {α : Type} (g : Option (Geom α)) (cs rest : List (KFeat α)) :
    bfs (KFeat.mk g cs :: rest) =
      match g with
      | some geom =>
        if (extract_ring geom).isEmpty then bfs (rest ++ cs)
        else some (extract_ring geom)
      | none => bfs (rest ++ cs) := by
  have hsz : kfsSize (KFeat.mk g cs :: rest) = (kfsSize rest + kfsSize cs) + 1 := by
    simp only [kfsSize, kfSize]
    omega
  show kml_bfs_fuel (kfsSize (KFeat.mk g cs :: rest)) (KFeat.mk g cs :: rest) = _
  rw [hsz]
  have harg : kfsSize rest + kfsSize cs = kfsSize (rest ++ cs) :=
    (kfsSize_append rest cs).symm
  simp only [kml_bfs_fuel, harg]
  cases g with
  | none => rfl
  | some geom => rfl

/-- C2: `_kml_ring` first breadth-first traverses the feature tree (popping
the queue head and appending its children), extracting a Polygon's exterior
ring, a MultiPolygon's first member's exterior ring, or recursing in order
into a GeometryCollection with first success winning; if the tree yields
nothing it falls back to the raw `LinearRing/coordinates` text, splitting on
whitespace and keeping only the first two comma-separated components of each
token; it returns `none` (never an error) exactly when both strategies
fail. -/
theorem C2_geometry_extractor {α : Type} (parse : String → α) (doc : KmlDoc α) :
    ((kml_ring parse doc = none) ↔
      (bfs doc.features = none ∧ fallbackRing parse doc.rawCoords = none)) ∧
    (∀ r, bfs doc.features = some r → kml_ring parse doc = some r) ∧
    (bfs doc.features = none →
      kml_ring parse doc = fallbackRing parse doc.rawCoords) ∧
    (bfs ([] : List (KFeat α)) = none) ∧
    (∀ (g : Geom α) (cs rest : List (KFeat α)),
      bfs (KFeat.mk (some g) cs :: rest) =
      if (extract_ring g).isEmpty then bfs (rest ++ cs)
      else some (extract_ring g)) ∧
    (∀ (cs rest : List (KFeat α)),
      bfs (KFeat.mk (α := α) none cs :: rest) = bfs (rest ++ cs)) ∧
    (∀ ext ins, extract_ring (Geom.polygon (α := α) ext ins) = ext) ∧
    (∀ mf mr, extract_ring (Geom.multiPolygon (α := α) mf mr) = mf.1) ∧
    (∀ pt, extract_ring (Geom.point (α := α) pt) = []) ∧
    (∀ ls, extract_ring (Geom.lineString (α := α) ls) = []) ∧
    (extract_ring (Geom.collection (α := α) []) = []) ∧
    (∀ (g : Geom α) (gs : List (Geom α)),
      extract_ring (Geom.collection (g :: gs)) =
      if (extract_ring g).isEmpty then extract_ring (Geom.collection gs)
      else extract_ring g) ∧
    (fallbackRing parse none = none) ∧
    (fallbackRing parse (some "") = none) ∧
    (∀ txt, txt ≠ "" → fallbackRing parse (some txt) =
      (if (parseCoordsText parse txt).isEmpty then none
       else some (parseCoordsText parse txt))) ∧
    (∀ tok a b comps, splitComma tok = a :: b :: comps →
      parsePoint parse tok = [parse (String.mk a), parse (String.mk b)]) := by
  refine ⟨?_, ?_, ?_, rfl, ?_, ?_, fun ext ins => rfl, fun mf mr => rfl,
    fun pt => rfl, fun ls => rfl, rfl, ?_, rfl, rfl, ?_, ?_⟩
  · unfold kml_ring
    cases hb : bfs doc.features with
    | none => simp
    | some r => simp
  · intro r hb
    unfold kml_ring
    rw [hb]
  · intro hb
    unfold kml_ring
    rw [hb]
  · intro g cs rest
    rw [bfs_cons]
  · intro cs rest
    rw [bfs_cons]
  · intro g gs
    rfl
  · intro txt htxt
    simp [fallbackRing, htxt]
  · intro tok a b comps h
    simp [parsePoint, h]

/-- Witness for C2: the spec scenario of a document whose only feature
carries a GeometryCollection containing one Polygon. -/
theorem C2_geometry_extractor_witness :
    kml_ring (fun _ => (0 : Int))
        ⟨[KFeat.mk (some (Geom.collection
            [Geom.point [], Geom.polygon [[1, 2], [3, 4]] []])) []], none⟩ =
      some [[1, 2], [3, 4]] :=
  (C2_geometry_extractor (fun _ => (0 : Int))
      ⟨[KFeat.mk (some (Geom.collection
          [Geom.point [], Geom.polygon [[1, 2], [3, 4]] []])) []], none⟩).2.1
    [[1, 2], [3, 4]] (by decide)

end TransformGeojson


/-! ## Claims C3, C4, C5 — layer fusion -/

namespace TransformGeojson

/-- The inner horizon loop equals its filterMap closed forms. -/
theorem horizonLoop_eq {α : Type} (parse : String → α)
    (fs : String → Option (KmlDoc α)) (b : BundleFile α)
    (hs : List (String × HorizonFileData α)) :
    horizonLoop parse fs b hs =
      (hs.filterMap fun lh => (fs lh.2.kml).map fun doc =>
        plumeFeature parse b lh.1 doc,
       hs.filterMap fun lh => (fs lh.2.kml).map fun _ =>
        metaFeature b lh.1 lh.2,
       hs.filterMap fun lh =>
        match fs lh.2.kml with
        | none => some lh.2.kml
        | some _ => none) := by
  induction hs with
  | nil => rfl
  | cons lh rest ih =>
    simp only [horizonLoop, ih, List.filterMap_cons]
    cases hfs : fs lh.2.kml with
    | none => simp [hfs]
    | some doc => simp [hfs]

/-- `_read_plumes_and_meta` equals its three closed forms. -/
theorem read_plumes_and_meta_eq {α : Type} (parse : String → α)
    (fs : String → Option (KmlDoc α)) (bs : List (BundleFile α)) :
    read_plumes_and_meta parse fs bs =
      (plumesOf parse fs bs, metasOf fs bs, missingOf fs bs) := by
  induction bs with
  | nil => rfl
  | cons b rest ih =>
    simp only [read_plumes_and_meta, ih, horizonLoop_eq, plumesOf, metasOf,
      missingOf, List.flatMap_cons]

/-- Generic length law: a filterMap through an option-valued lookup has the
length of the isSome filter. -/
theorem length_filterMap_option_map {σ τ ρ : Type} (l : List σ)
    (t : σ → Option τ) (g : σ → τ → ρ) :
    (l.filterMap fun x => (t x).map (g x)).length =
      (l.filter fun x => (t x).isSome).length := by
  induction l with
  | nil => rfl
  | cons x xs ih =>
    cases ht : t x <;>
      simp [List.filterMap_cons, List.filter_cons, ht, ih]

theorem plumesOf_length {α : Type} (parse : String → α)
    (fs : String → Option (KmlDoc α)) (bs : List (BundleFile α)) :
    (plumesOf parse fs bs).length = artifactPairs fs bs := by
  induction bs with
  | nil => rfl
  | cons b rest ih =>
    simp only [plumesOf, artifactPairs, List.flatMap_cons, List.map_cons,
      List.length_append, List.sum_cons] at ih ⊢
    rw [length_filterMap_option_map, ih]

theorem metasOf_length {α : Type} (fs : String → Option (KmlDoc α))
    (bs : List (BundleFile α)) :
    (metasOf fs bs).length = artifactPairs fs bs := by
  induction bs with
  | nil => rfl
  | cons b rest ih =>
    simp only [metasOf, artifactPairs, List.flatMap_cons, List.map_cons,
      List.length_append, List.sum_cons] at ih ⊢
    rw [length_filterMap_option_map, ih]

theorem read_incidents_length {α : Type} (parse : String → α)
    (items : List RssItem) (incs : List (GFeature α))
    (h : read_incidents parse items = some incs) :
    incs.length = items.length := by
  induction items generalizing incs with
  | nil =>
    simp only [read_incidents, Option.some_inj] at h
    simp [← h]
  | cons it rest ih =>
    simp only [read_incidents] at h
    cases hl : linkLatLon it.link.toList with
    | none => rw [hl] at h; cases h
    | some latlon =>
      rw [hl] at h
      cases hr : read_incidents parse rest with
      | none => rw [hr] at h; cases h
      | some feats =>
        rw [hr] at h
        simp only [Option.some_inj] at h
        simp [← h, ih feats hr]

/-- C3 (amended): during fusion a (bundle, horizon) pair is skipped, with
its artifact path logged as a warning, exactly when the artifact file is
missing; when the file exists but ring extraction returns `none` the plume
feature is still emitted, with a `null` ring slot; and fusion succeeds or
fails independently of the artifact store and bundles (a missing ring is
never fatal). -/
theorem C3_plume_skip_policy {α : Type} (parse : String → α)
    (fs fs2 : String → Option (KmlDoc α)) (day : String)
    (items : List RssItem) (bundles bundles2 : List (BundleFile α)) :
    ((read_plumes_and_meta parse fs bundles).1 = plumesOf parse fs bundles) ∧
    ((read_plumes_and_meta parse fs bundles).2.2 = missingOf fs bundles) ∧
    (∀ (b : BundleFile α) (label : String) (doc : KmlDoc α),
      (plumeFeature parse b label doc).geom = FGeom.polygon [kml_ring parse doc]) ∧
    ((build parse fs day items bundles).isSome =
      (build parse fs2 day items bundles2).isSome) ∧
    ((build parse fs day items bundles).isSome =
      (read_incidents parse items).isSome) := by
  have hb : ∀ (fs1 : String → Option (KmlDoc α)) (bs : List (BundleFile α)),
      (build parse fs1 day items bs).isSome = (read_incidents parse items).isSome := by
    intro fs1 bs
    unfold build
    cases read_incidents parse items <;> rfl
  refine ⟨?_, ?_, fun b label doc => rfl, ?_, hb fs bundles⟩
  · rw [read_plumes_and_meta_eq]
  · rw [read_plumes_and_meta_eq]
  · rw [hb fs bundles, hb fs2 bundles2]

/-- C3 counterexample: a pair whose artifact file exists but whose ring
extraction returns `none` — the plume feature is emitted (with a `null`
ring), not skipped, and no warning is logged. -/
theorem C3_counterexample :
    kml_ring cexParse cexDoc = none ∧
    (read_plumes_and_meta cexParse cexFs [cexBundle]).1 =
      [⟨FGeom.polygon [none],
        [("layer", PVal.s "plumes"), ("guid", PVal.s "A1"),
         ("title", PVal.s "A1"), ("horizon_type", PVal.s "0.5h")]⟩] ∧
    (read_plumes_and_meta cexParse cexFs [cexBundle]).2.2 = [] :=
  ⟨rfl, rfl, rfl⟩

/-- C4 (amended): the fused feature list is incidents, then all plume
features, then all meta features, in stable bundle-then-horizon iteration
order; the total count is |incidents| plus one plume and one meta feature
per (incident, horizon) pair whose artifact file exists — plume features
with unresolvable geometry are included (with a null ring), not excluded
from the count. -/
theorem C4_feature_ordering_and_count {α : Type} (parse : String → α)
    (fs : String → Option (KmlDoc α)) (day : String)
    (items : List RssItem) (bundles : List (BundleFile α))
    (incs : List (GFeature α)) (h : read_incidents parse items = some incs) :
    build parse fs day items bundles =
      some ⟨"FireSmokeMap_" ++ day,
            incs ++ plumesOf parse fs bundles ++ metasOf fs bundles⟩ ∧
    incs.length = items.length ∧
    (plumesOf parse fs bundles).length = artifactPairs fs bundles ∧
    (metasOf fs bundles).length = artifactPairs fs bundles ∧
    (∀ c, build parse fs day items bundles = some c →
      c.features.length = items.length + 2 * artifactPairs fs bundles) := by
  have hbuild : build parse fs day items bundles =
      some ⟨"FireSmokeMap_" ++ day,
            incs ++ plumesOf parse fs bundles ++ metasOf fs bundles⟩ := by
    unfold build
    rw [h, read_plumes_and_meta_eq]
  refine ⟨hbuild, read_incidents_length parse items incs h,
    plumesOf_length parse fs bundles, metasOf_length fs bundles, ?_⟩
  intro c hc
  rw [hbuild] at hc
  cases hc
  simp only [List.length_append, plumesOf_length, metasOf_length,
    read_incidents_length parse items incs h]
  omega

/-- Witness for C4 at a concrete day: one incident, one bundle with one
existing artifact, features ordered incidents-plumes-meta. -/
theorem C4_feature_ordering_and_count_witness :
    build cexParse cexFs "2025-05-11" [cexItem] [cexBundle] =
      some ⟨"FireSmokeMap_2025-05-11",
        [⟨FGeom.point 0 0,
          [("layer", PVal.s "incidents"), ("guid", PVal.s "A1"),
           ("title", PVal.s "Fire A1"), ("description", PVal.s ""),
           ("pubDate", PVal.s "")]⟩] ++
        plumesOf cexParse cexFs [cexBundle] ++ metasOf cexFs [cexBundle]⟩ :=
  (C4_feature_ordering_and_count cexParse cexFs "2025-05-11" [cexItem]
    [cexBundle]
    [⟨FGeom.point 0 0,
      [("layer", PVal.s "incidents"), ("guid", PVal.s "A1"),
       ("title", PVal.s "Fire A1"), ("description", PVal.s ""),
       ("pubDate", PVal.s "")]⟩] (by decide)).1

/-- C4 counterexample: with an existing artifact whose geometry is
unresolvable, the fused collection has 3 features, while the claimed
formula |incidents| + |plumes with resolvable geometry| + |meta points|
gives 2. -/
theorem C4_counterexample :
    (build cexParse cexFs "2025-05-11" [cexItem] [cexBundle]).map
        (fun c => c.features.length) = some 3 ∧
    [cexItem].length + resolvedPlumes cexParse cexFs [cexBundle] +
      totalPairs [cexBundle] = 2 ∧
    (3 : Nat) ≠ 2 :=
  ⟨rfl, rfl, by decide⟩

/-- C5 (amended): one meta Point feature per (incident, horizon) pair whose
plume artifact file exists — coordinates `[lon, lat]` of the incident and
exactly the horizon's emission/wind parameters plus guid, title (the guid)
and horizon_type; pairs whose artifact file is missing produce no meta
point. -/
theorem C5_meta_points {α : Type} (parse : String → α)
    (fs : String → Option (KmlDoc α)) (bundles : List (BundleFile α)) :
    (read_plumes_and_meta parse fs bundles).2.1 =
      bundles.flatMap fun b => b.horizons.filterMap fun lh =>
        (fs lh.2.kml).map fun _ =>
          ({ geom := FGeom.point b.lon b.lat,
             props := [("layer", PVal.s "meta"), ("guid", PVal.s b.guid),
                       ("title", PVal.s b.guid), ("horizon_type", PVal.s lh.1),
                       ("acres", PVal.n lh.2.acres), ("mix", PVal.n lh.2.mix),
                       ("stclass", PVal.n lh.2.stclass),
                       ("frise", PVal.n lh.2.frise),
                       ("horizon_min", PVal.n lh.2.horizon_min),
                       ("erate", PVal.n lh.2.erate), ("hrate", PVal.n lh.2.hrate),
                       ("wspd", PVal.n lh.2.wspd), ("wdir", PVal.n lh.2.wdir)] }
            : GFeature α) := by
  rw [read_plumes_and_meta_eq]
  rfl

/-- C5 counterexample: a (incident, horizon) pair whose artifact file is
missing yields no meta point at all. -/
theorem C5_counterexample :
    (read_plumes_and_meta cexParse cexFsNone [cexBundle]).2.1 = [] ∧
    totalPairs [cexBundle] = 1 :=
  ⟨rfl, rfl⟩

end TransformGeojson


/-! ## Claim C1 — bundle atomicity of the orchestrator -/

namespace SmokeSim

/-- A successful engine run means both exits were zero. -/
theorem run_vsmoke_ok_exits (env : EngineEnv) (stem k : String)
    (h : run_vsmoke env stem = .ok k) :
    env.solverExit stem = 0 ∧ env.converterExit stem = 0 := by
  unfold run_vsmoke at h
  by_cases hs : env.solverExit stem = 0
  · by_cases hc : env.converterExit stem = 0
    · exact ⟨hs, hc⟩
    · rw [if_neg (by simp [hs]), if_pos (by simp [hc])] at h
      cases h
  · rw [if_pos (by simp [hs])] at h
    cases h

/-- A successful horizon means both engine exits for its stem were zero. -/
theorem single_horizon_ok_exits {α : Type} (cfg : VsmokeConf α)
    (env : EngineEnv) (wx : List Char × List Char → String × String)
    (today guid : String) (lat lon : List Char) (tag : String) (minutes : Nat)
    (h : HorizonMeta α)
    (hok : single_horizon cfg env wx today guid lat lon tag minutes = .ok h) :
    env.solverExit (hstem today guid tag) = 0 ∧
    env.converterExit (hstem today guid tag) = 0 := by
  unfold single_horizon at hok
  split at hok
  · exact Except.noConfusion hok
  · split at hok
    · exact Except.noConfusion hok
    · rename_i kml hrv
      exact run_vsmoke_ok_exits env _ _ hrv

/-- A bundle returned by `process_item` carries exactly the three horizon
tags, in catalog order. -/
theorem process_item_ok_shape {α : Type} (cfg : VsmokeConf α) (env : EngineEnv)
    (wx : List Char × List Char → String × String) (today fmstem : String)
    (it : TransformGeojson.RssItem) (w : String × Bundle α)
    (hok : process_item cfg env wx today fmstem it = .ok w) :
    w.2.horizons.map Prod.fst = ["0.5h", "1.5h", "2.5h"] ∧
    (∀ tag ∈ (["1", "2", "3"] : List String),
      env.solverExit (hstem today it.guid tag) = 0 ∧
      env.converterExit (hstem today it.guid tag) = 0) := by
  unfold process_item at hok
  split at hok
  · exact Except.noConfusion hok
  · rename_i latlon hl
    split at hok
    · exact Except.noConfusion hok
    · rename_i m1 h1
      split at hok
      · exact Except.noConfusion hok
      · rename_i m2 h2
        split at hok
        · exact Except.noConfusion hok
        · rename_i m3 h3
          cases hok
          refine ⟨rfl, ?_⟩
          intro tag htag
          simp only [List.mem_cons, List.not_mem_nil, or_false] at htag
          rcases htag with h | h | h
          · subst h
            exact single_horizon_ok_exits cfg env wx today it.guid _ _ _ _ m1 h1
          · subst h
            exact single_horizon_ok_exits cfg env wx today it.guid _ _ _ _ m2 h2
          · subst h
            exact single_horizon_ok_exits cfg env wx today it.guid _ _ _ _ m3 h3

/-- C1: every bundle that `process_firemap` writes carries all three
HorizonResults (tags 0.5h, 1.5h, 2.5h); and if the dispersion engine or the
KML converter exits non-zero for any of an incident's horizons, processing
that incident raises an error instead of returning a bundle, so no bundle
file is written for that (date, guid) — never a partial bundle. -/
theorem C1_bundle_atomicity {α : Type} (cfg : VsmokeConf α) (env : EngineEnv)
    (wx : List Char × List Char → String × String) (today fmstem : String)
    (items : List TransformGeojson.RssItem) :
    (∀ w, w ∈ (process_firemap cfg env wx today fmstem items).1 →
      w.2.horizons.map Prod.fst = ["0.5h", "1.5h", "2.5h"]) ∧
    (∀ it : TransformGeojson.RssItem, engineFailsAt env today it.guid →
      ∃ e, process_item cfg env wx today fmstem it = Except.error e) ∧
    (∀ it : TransformGeojson.RssItem, engineFailsAt env today it.guid →
      (process_firemap cfg env wx today fmstem [it]).1 = []) := by
  have hfail : ∀ it : TransformGeojson.RssItem, engineFailsAt env today it.guid →
      ∃ e, process_item cfg env wx today fmstem it = Except.error e := by
    intro it hf
    cases hres : process_item cfg env wx today fmstem it with
    | error e => exact ⟨e, rfl⟩
    | ok w =>
      exfalso
      obtain ⟨tag, htag, hor⟩ := hf
      obtain ⟨hs, hc⟩ := (process_item_ok_shape cfg env wx today fmstem it w hres).2 tag htag
      rcases hor with h | h
      · exact h hs
      · exact h hc
  refine ⟨?_, hfail, ?_⟩
  · induction items with
    | nil => intro w hw; cases hw
    | cons it rest ih =>
      intro w hw
      simp only [process_firemap] at hw
      cases hres : process_item cfg env wx today fmstem it with
      | error e => rw [hres] at hw; cases hw
      | ok w0 =>
        rw [hres] at hw
        simp only [List.mem_cons] at hw
        rcases hw with h | h
        · rw [h]
          exact (process_item_ok_shape cfg env wx today fmstem it w0 hres).1
        · exact ih w h
  · intro it hf
    obtain ⟨e, he⟩ := hfail it hf
    simp [process_firemap, he]

/-- Witness for C1: with a solver that exits 1, processing an incident
raises and writes no bundle. -/
theorem C1_bundle_atomicity_witness :
    (process_firemap cexConf cexEnvFail cexWx "2025-05-11"
      "FireMap_2025-05-11" [TransformGeojson.cexItem]).1 = [] :=
  (C1_bundle_atomicity cexConf cexEnvFail cexWx "2025-05-11"
      "FireMap_2025-05-11" [TransformGeojson.cexItem]).2.2
    TransformGeojson.cexItem ⟨"1", by decide, Or.inl (by decide)⟩

end SmokeSim

end FireSmoke
